import Mathlib

/-!
Shallow embedding of the reservation lifecycle and inventory engine of the
API_BACKEND repository (Express + Mongoose).  Books, students and
reservations are modelled as association lists keyed by numeric ids; Mongo
`$inc` updates are explicit record updates; timestamps are naturals
(milliseconds).  Counter fields are integers because several update paths
decrement them without a guard.  Each route handler of
`src/api/reservation.js`, `src/controllers/reservationController.js`,
`src/api/utils/syncBookCounts.js`, `src/api/utils/reservationExpiryJob.js`
and `src/unnamed/part_018` that the claims reference is translated into a
pure function on the database state.
-/

/-- A document of the `books` collection (src/models/Book.js).  `quantity`
is the capacity field of the schema; the schema declares no `totalCount`
field.  `status` is the derived display status. -/
structure Book where
  quantity : Nat
  availableCount : Int
  reservedCount : Int
  borrowedCount : Int
  lostCount : Int
  status : String
deriving DecidableEq

/-- A document of the `students` collection (studentSchema in
src/unnamed/part_003): the fields the reservation engine touches.
`status` is the standing status (Pending, Active, Inactive, Blocked). -/
structure Student where
  activeReservations : Int
  cooldownUntil : Option Nat
  status : String
deriving DecidableEq

/-- A document of the `reservations` collection (reservationSchema in
src/unnamed/part_008). -/
structure Reservation where
  rid : Nat
  bookId : Nat
  studentId : Nat
  status : String
  reservedAt : Nat
  expiresAt : Nat
  dueDate : Option Nat
  reminderSent : Bool
deriving DecidableEq

/-- The persistent state: the three Mongo collections. -/
structure DB where
  books : List (Nat × Book)
  students : List (Nat × Student)
  reservations : List Reservation
deriving DecidableEq

/-- `findById`: first document with the given id. -/
def lookupById {β : Type} : List (Nat × β) → Nat → Option β
  | [], _ => none
  | p :: rest, i => if p.1 == i then some p.2 else lookupById rest i

/-- `findByIdAndUpdate`: apply `f` to the document with the given id
(no-op when the id is absent, as in Mongo). -/
def updateById {β : Type} (l : List (Nat × β)) (i : Nat) (f : β → β) : List (Nat × β) :=
  l.map (fun p => if p.1 == i then (p.1, f p.2) else p)

-- Constants of src/api/reservation.js (first router variant)
def MAX_ACTIVE_RESERVATIONS : Int := 1
def COOLDOWN_MINUTES : Nat := 10
def RESERVATION_EXPIRY_HOURS : Nat := 1

/-- `computeCooldown` of src/api/reservation.js:16. -/
def computeCooldown (now : Nat) : Nat := now + COOLDOWN_MINUTES * 60 * 1000

/-- The cooldown test of src/api/reservation.js:72
(`student.cooldownUntil && student.cooldownUntil > new Date()`). -/
def cooldownActive (s : Student) (now : Nat) : Bool :=
  match s.cooldownUntil with
  | some t => decide (now < t)
  | none => false

/-- The expiry-sweep query predicate
(`{ status: "reserved", expiresAt: { $lt: now } }`). -/
def isOverdueReserved (now : Nat) (r : Reservation) : Bool :=
  r.status == "reserved" && decide (r.expiresAt < now)

/-- `resv.status = "expired"; resv.save()`: mark the reservation with the
given id expired. -/
def setExpired (rs : List Reservation) (i : Nat) : List Reservation :=
  rs.map (fun r => if r.rid == i then { r with status := "expired" } else r)

/-- The paired book update `$inc: { availableCount: 1, reservedCount: -1 }`. -/
def releaseToAvailable (b : Book) : Book :=
  { b with availableCount := b.availableCount + 1, reservedCount := b.reservedCount - 1 }

/-- The paired book update `$inc: { availableCount: -1, reservedCount: 1 }`
of the guarded create decrement. -/
def reserveCopyUpdate (b : Book) : Book :=
  { b with availableCount := b.availableCount - 1, reservedCount := b.reservedCount + 1 }

/-- One iteration of the sweep loop of src/api/reservation.js:44-54:
release the copy, decrement the owner's `activeReservations`, start the
owner's cooldown, and mark the reservation expired. -/
def expireStep (now : Nat) (db : DB) (resv : Reservation) : DB :=
  { books := updateById db.books resv.bookId releaseToAvailable,
    students := updateById db.students resv.studentId
      (fun s => { s with activeReservations := s.activeReservations - 1,
                         cooldownUntil := some (computeCooldown now) }),
    reservations := setExpired db.reservations resv.rid }

/-- `expireOldReservations` of src/api/reservation.js:37-55: find the
overdue holds, then process each one. -/
def expireOldReservations (db : DB) (now : Nat) : DB :=
  (db.reservations.filter (isOverdueReserved now)).foldl (expireStep now) db

/-- The guarded create decrement of src/api/reservation.js:91-95:
`Book.findOneAndUpdate({ _id, availableCount: { $gt: 0 } }, { $inc: ... })`.
The availability check and the decrement are a single conditional update:
`none` means the filter matched no document and nothing was written. -/
def tryReserveBook (books : List (Nat × Book)) (bid : Nat) :
    Option (List (Nat × Book)) :=
  match lookupById books bid with
  | some b =>
    if 0 < b.availableCount then some (updateById books bid reserveCopyUpdate) else none
  | none => none

/-- `POST /api/reservation/:bookId` of src/api/reservation.js:61-131.
The route first runs the inline expiry sweep, then checks the cooldown on
`req.user` (the snapshot loaded by `authenticate` before the sweep ran),
then re-reads the student and checks the active-reservation limit, then
attempts the guarded inventory decrement, then inserts the reservation and
increments the member counter.  Error paths return the post-sweep state:
the session is never committed, so none of the in-transaction writes
survive.  There is no standing-status check in this variant. -/
def reservePost (db : DB) (sid bid now rid : Nat) : Except String Reservation × DB :=
  let user? := lookupById db.students sid
  let db1 := expireOldReservations db now
  match user? with
  | none => (.error "Student not found", db1)
  | some user =>
    if cooldownActive user now then
      (.error "Cooldown active. Please wait before reserving again.", db1)
    else
      match lookupById db1.students sid with
      | none => (.error "Student not found", db1)
      | some studentDoc =>
        if MAX_ACTIVE_RESERVATIONS ≤ studentDoc.activeReservations then
          (.error "You already have an active reservation", db1)
        else
          match tryReserveBook db1.books bid with
          | none => (.error "No available copies", db1)
          | some books1 =>
            let expiresAt := now + RESERVATION_EXPIRY_HOURS * 60 * 60 * 1000
            let resv : Reservation :=
              { rid := rid, bookId := bid, studentId := sid, status := "reserved",
                reservedAt := now, expiresAt := expiresAt, dueDate := none,
                reminderSent := false }
            (.ok resv,
             { books := books1,
               students := updateById db1.students sid
                 (fun s => { s with activeReservations := s.activeReservations + 1 }),
               reservations := db1.reservations ++ [resv] })

/-- `DELETE /api/reservation/:id` of src/api/reservation.js:168-214
(member-initiated cancel).  On any thrown error the transaction is
aborted, so error paths leave the state unchanged.  On success: release
the copy, decrement the owner's `activeReservations`, set the reservation
status to cancelled. -/
def cancelRoute (db : DB) (id requesterId : Nat) : Except String DB :=
  match db.reservations.find? (fun r => r.rid == id) with
  | none => .error "Reservation not found"
  | some r =>
    if r.studentId ≠ requesterId then .error "Not authorized"
    else if r.status ≠ "reserved" then .error "Reservation already expired or cancelled"
    else
      .ok { books := updateById db.books r.bookId releaseToAvailable,
            students := updateById db.students r.studentId
              (fun s => { s with activeReservations := s.activeReservations - 1 }),
            reservations := db.reservations.map
              (fun q => if q.rid == id then { q with status := "cancelled" } else q) }

/-- The duplicate-reservation guard of
src/controllers/reservationController.js:14-18: an existing reservation of
the same member for the same book whose status is reserved, approved or
borrowed blocks creation. -/
def controllerDupGuard (db : DB) (sid bid : Nat) : Bool :=
  (db.reservations.find? (fun r => r.bookId == bid && r.studentId == sid &&
    (r.status == "reserved" || r.status == "approved" || r.status == "borrowed"))).isSome

/-- The availability check of src/controllers/reservationController.js:28-29:
`Book.findById` followed by `!book || book.availableCount <= 0`.  This is a
plain read, separate from the later write-back. -/
def controllerAvailCheck (books : List (Nat × Book)) (bid : Nat) : Bool :=
  match lookupById books bid with
  | some b => decide (0 < b.availableCount)
  | none => false

/-- The counter write-back of src/controllers/reservationController.js:47-49:
`book.availableCount -= 1; book.reservedCount += 1; book.save()`.  The saved
values are computed from the document as it was read, so a concurrent
update between the read and this save is lost. -/
def controllerWriteBack (books : List (Nat × Book)) (bid : Nat) (b : Book) :
    List (Nat × Book) :=
  updateById books bid
    (fun _ => { b with availableCount := b.availableCount - 1,
                       reservedCount := b.reservedCount + 1 })

/-- The reservation document inserted by the controller create
(`expiresAt` comes from the request body; `reservedAt` and `status` take
their schema defaults). -/
def mkControllerReservation (bid sid expiresAt now rid : Nat) : Reservation :=
  { rid := rid, bookId := bid, studentId := sid, status := "reserved",
    reservedAt := now, expiresAt := expiresAt, dueDate := none, reminderSent := false }

/-- `createReservation` of src/controllers/reservationController.js:8-62,
run without interference: duplicate guard, availability read-check,
reservation insert, then the separate counter write-back.  Error paths
perform no mutation (nothing is saved before the failing check). -/
def reserveController (db : DB) (sid bid expiresAt now rid : Nat) :
    Except String Reservation × DB :=
  if controllerDupGuard db sid bid then
    (.error "You already have an active reservation for this book.", db)
  else
    match lookupById db.books bid with
    | none => (.error "Book is not available for reservation.", db)
    | some book =>
      if book.availableCount ≤ 0 then (.error "Book is not available for reservation.", db)
      else
        let resv := mkControllerReservation bid sid expiresAt now rid
        (.ok resv,
         { books := controllerWriteBack db.books bid book,
           students := db.students,
           reservations := db.reservations ++ [resv] })

/-- Two concurrent `createReservation` calls of
src/controllers/reservationController.js under the interleaving in which
both requests perform their reads (duplicate guard, `Book.findById`,
availability check) against the same initial state and then commit their
writes in order.  Returns the final state and each request's success flag. -/
def twoControllerCreatesInterleaved (db : DB) (sidA sidB bid eA eB now ridA ridB : Nat) :
    DB × Bool × Bool :=
  let okA := !controllerDupGuard db sidA bid && controllerAvailCheck db.books bid
  let okB := !controllerDupGuard db sidB bid && controllerAvailCheck db.books bid
  match lookupById db.books bid with
  | none => (db, okA, okB)
  | some book =>
    let dbA :=
      if okA then
        { books := controllerWriteBack db.books bid book,
          students := db.students,
          reservations := db.reservations ++ [mkControllerReservation bid sidA eA now ridA] }
      else db
    let dbB :=
      if okB then
        { books := controllerWriteBack dbA.books bid book,
          students := dbA.students,
          reservations := dbA.reservations ++ [mkControllerReservation bid sidB eB now ridB] }
      else dbA
    (dbB, okA, okB)

/-- `cancelReservation` of src/controllers/reservationController.js:92-122:
a single `findOne` with the ownership and status filters merged (status
reserved **or** approved); on success the reservation is cancelled and the
book released, and the member counter is not touched. -/
def cancelController (db : DB) (id sid : Nat) : Except String DB :=
  match db.reservations.find? (fun r => r.rid == id && r.studentId == sid &&
      (r.status == "reserved" || r.status == "approved")) with
  | none => .error "Reservation not found or cannot be cancelled."
  | some r =>
    .ok { books := updateById db.books r.bookId
            (fun b => { b with availableCount := b.availableCount + 1,
                               reservedCount := b.reservedCount - 1,
                               status := "Available" }),
          students := db.students,
          reservations := db.reservations.map
            (fun q => if q.rid == id then { q with status := "cancelled" } else q) }

/-- `PATCH /api/reservation/:id/status` of src/api/reservation.js:289-342
(first router variant).  Only `approved` and `declined` pass the target
whitelist; the reservation's status is overwritten unconditionally and the
counters are adjusted only when the old status was `reserved`. -/
def patchStatusV1 (db : DB) (id : Nat) (status : String) : Except String DB :=
  if !(["approved", "declined"].contains status.toLower) then .error "Invalid status"
  else
    match db.reservations.find? (fun r => r.rid == id) with
    | none => .error "Reservation not found"
    | some r =>
      let st := status.toLower
      let oldStatus := r.status
      let resvs1 := db.reservations.map
        (fun q => if q.rid == id then { q with status := st } else q)
      let db1 : DB := { db with reservations := resvs1 }
      if st == "approved" && oldStatus == "reserved" then
        let booksA := updateById db1.books r.bookId
          (fun b => { b with borrowedCount := b.borrowedCount + 1,
                             reservedCount := b.reservedCount - 1 })
        .ok { db1 with books := booksA }
      else if st == "declined" && oldStatus == "reserved" then
        let booksD := updateById db1.books r.bookId releaseToAvailable
        let studentsD := updateById db1.students r.studentId
          (fun s => { s with activeReservations := s.activeReservations - 1 })
        .ok { db1 with books := booksD, students := studentsD }
      else .ok db1

/-- `PATCH /api/reservation/:id/status` of src/api/reservation.js:795-865
(third router variant).  The requested status is assigned unconditionally
(`reservation.status = status`) with no check of the current status; the
switch adjusts the book counters and the due date per target, and the
`returned` branch rewrites the stored status to `completed`. -/
def patchStatusV3 (db : DB) (id : Nat) (status : String) (now : Nat) : Except String DB :=
  match db.reservations.find? (fun r => r.rid == id) with
  | none => .error "Reservation not found"
  | some r =>
    let finalStatus := if status == "returned" then "completed" else status
    let dueDate' :=
      if status == "approved" then some (now + 3 * 24 * 60 * 60 * 1000)
      else if status == "declined" || status == "cancelled" || status == "expired"
                || status == "returned" then none
      else r.dueDate
    let books' :=
      if status == "approved" then
        updateById db.books r.bookId
          (fun b => { b with reservedCount := b.reservedCount - 1,
                             borrowedCount := b.borrowedCount + 1, status := "Borrowed" })
      else if status == "declined" || status == "cancelled" || status == "expired" then
        updateById db.books r.bookId
          (fun b => { b with availableCount := b.availableCount + 1,
                             reservedCount := b.reservedCount - 1, status := "Available" })
      else if status == "returned" then
        updateById db.books r.bookId
          (fun b => { b with availableCount := b.availableCount + 1,
                             borrowedCount := b.borrowedCount - 1, status := "Available" })
      else if status == "lost" then
        updateById db.books r.bookId
          (fun b => { b with borrowedCount := b.borrowedCount - 1,
                             lostCount := b.lostCount + 1, status := "Lost" })
      else db.books
    .ok { books := books',
          students := db.students,
          reservations := db.reservations.map
            (fun q => if q.rid == id then { q with status := finalStatus, dueDate := dueDate' }
                      else q) }

/-- `PATCH /api/reservation/:id/status` of src/unnamed/part_018:423-474.
The `returned` branch increments `availableCount` (with no paired
decrement) and decrements the member counter only when it is positive
(`if (student && student.activeReservations > 0)`); the `declined` branch
increments `availableCount` alone. -/
def patchStatusPart18 (db : DB) (id : Nat) (status : String) (now : Nat) : Except String DB :=
  match db.reservations.find? (fun q => q.rid == id) with
  | none => .error "Reservation not found."
  | some r =>
    let dueDate' := if status == "approved" then some (now + 3 * 24 * 60 * 60 * 1000)
                    else r.dueDate
    let books' :=
      if status == "returned" || status == "declined" then
        updateById db.books r.bookId
          (fun b => { b with availableCount := b.availableCount + 1 })
      else db.books
    let students' :=
      if status == "returned" then
        updateById db.students r.studentId
          (fun s => if 0 < s.activeReservations then
                      { s with activeReservations := s.activeReservations - 1 }
                    else s)
      else db.students
    .ok { books := books', students := students',
          reservations := db.reservations.map
            (fun q => if q.rid == id then { q with status := status, dueDate := dueDate' }
                      else q) }

/-- Count of matching reservation documents
(`Reservation.countDocuments({ bookId, status })`), as an integer. -/
def countByStatus (resvs : List Reservation) (bid : Nat) (st : String) : Int :=
  ((resvs.filter (fun r => r.bookId == bid && r.status == st)).length : Int)

/-- Per-book body of `syncBookCounts` of src/api/utils/syncBookCounts.js:15-44.
`const total = book.totalCount || 1`: the book schema of
src/models/Book.js declares no `totalCount` field, so the read yields
`undefined` and `total` is always 1.  The four counters are then
overwritten (an independent set, not a paired increment/decrement) with
`availableCount` clamped at 0. -/
def syncBook (resvs : List Reservation) (bid : Nat) (b : Book) : Book :=
  let total : Int := 1
  let reservedCount := countByStatus resvs bid "reserved"
  let borrowedCount := countByStatus resvs bid "approved"
  let lostCount := countByStatus resvs bid "lost"
  let availableCount := max (total - (reservedCount + borrowedCount + lostCount)) 0
  let newStatus :=
    if 0 < borrowedCount then "Borrowed"
    else if 0 < reservedCount then "Reserved"
    else if 0 < lostCount then "Lost"
    else "Available"
  { b with availableCount := availableCount, reservedCount := reservedCount,
           borrowedCount := borrowedCount, lostCount := lostCount, status := newStatus }

/-- `syncBookCounts` of src/api/utils/syncBookCounts.js: recompute and
overwrite the counters of every book from the reservation records. -/
def syncBookCounts (db : DB) : DB :=
  { db with books := db.books.map (fun p => (p.1, syncBook db.reservations p.1 p.2)) }

/-- Modelled from the spec: the per-title recomputation of
ReconciliationJob (spec.md section 4.7), which uses `totalCopies` — the
authoritative capacity, i.e. the `quantity` field of the Book schema —
rather than the nonexistent `totalCount` field the code reads.  Stated
only to compare `syncBook` against the specified recomputation. -/
def specReconcileBook (resvs : List Reservation) (bid : Nat) (b : Book) : Book :=
  let total : Int := (b.quantity : Int)
  let reservedCount := countByStatus resvs bid "reserved"
  let borrowedCount := countByStatus resvs bid "approved"
  let lostCount := countByStatus resvs bid "lost"
  let availableCount := max (total - (reservedCount + borrowedCount + lostCount)) 0
  { b with availableCount := availableCount, reservedCount := reservedCount,
           borrowedCount := borrowedCount, lostCount := lostCount }

/-- One iteration of the expiry loops of
src/api/utils/reservationExpiryJob.js:33-50 and of the third router
variant's sweep (src/api/reservation.js:614-629): release the copy,
decrement the owner's `activeReservations`, mark the reservation expired —
and set no cooldown. -/
def expireStepNoCooldown (db : DB) (resv : Reservation) : DB :=
  { books := updateById db.books resv.bookId
      (fun b => { b with availableCount := b.availableCount + 1,
                         reservedCount := b.reservedCount - 1, status := "Available" }),
    students := updateById db.students resv.studentId
      (fun s => { s with activeReservations := s.activeReservations - 1 }),
    reservations := setExpired db.reservations resv.rid }

/-- The reminder-pass condition of src/api/utils/reservationExpiryJob.js:13-17:
reserved, expiring within ten minutes, reminder not yet sent. -/
def reminderCond (now : Nat) (r : Reservation) : Bool :=
  r.status == "reserved" && decide (now < r.expiresAt)
    && decide (r.expiresAt < now + 10 * 60 * 1000) && !r.reminderSent

/-- The reminder pass of src/api/utils/reservationExpiryJob.js:13-25:
set `reminderSent` on each matching hold (the SMS itself is an external
side effect). -/
def reminderPass (now : Nat) (rs : List Reservation) : List Reservation :=
  rs.map (fun r => if reminderCond now r then { r with reminderSent := true } else r)

/-- `expireOldReservations` of src/api/utils/reservationExpiryJob.js:7-59:
the reminder pass, then the expiry pass (which sets no cooldown). -/
def expireOldReservationsJob (db : DB) (now : Nat) : DB :=
  let db1 : DB := { db with reservations := reminderPass now db.reservations }
  (db1.reservations.filter (isOverdueReserved now)).foldl expireStepNoCooldown db1

/-- `expireOldReservations` of src/api/reservation.js:607-630 (third
router variant): same query, expiry without cooldown. -/
def expireOldReservationsV3 (db : DB) (now : Nat) : DB :=
  (db.reservations.filter (isOverdueReserved now)).foldl expireStepNoCooldown db

-- Constants of the third router variant of src/api/reservation.js
def MAX_ACTIVE_RESERVATIONS_V3 : Nat := 3
def RESERVATION_EXPIRY_HOURS_V3 : Nat := 2

/-- `POST /api/reservation/:bookId` of src/api/reservation.js:650-716
(third router variant): inline sweep, standing-status check, a limit that
counts only `approved` reservations, the guarded decrement (which also
sets the display status), then the insert.  This variant has no cooldown
check, no duplicate-reservation guard, and never increments the member's
`activeReservations`. -/
def reservePostV3 (db : DB) (sid bid now rid : Nat) : Except String Reservation × DB :=
  let db1 := expireOldReservationsV3 db now
  match lookupById db1.students sid with
  | none => (.error "Student not found", db1)
  | some studentDoc =>
    if studentDoc.status ≠ "Active" then
      (.error "Your account must be verified before reserving books.", db1)
    else
      let activeApproved := (db1.reservations.filter
        (fun r => r.studentId == sid && r.status == "approved")).length
      if MAX_ACTIVE_RESERVATIONS_V3 ≤ activeApproved then
        (.error "You can only have 3 borrowed books.", db1)
      else
        match lookupById db1.books bid with
        | none => (.error "No available copies.", db1)
        | some b =>
          if 0 < b.availableCount then
            let books1 := updateById db1.books bid
              (fun bk => { bk with availableCount := bk.availableCount - 1,
                                   reservedCount := bk.reservedCount + 1,
                                   status := "Reserved" })
            let resv : Reservation :=
              { rid := rid, bookId := bid, studentId := sid, status := "reserved",
                reservedAt := now,
                expiresAt := now + RESERVATION_EXPIRY_HOURS_V3 * 60 * 60 * 1000,
                dueDate := none, reminderSent := false }
            (.ok resv, { books := books1, students := db1.students,
                         reservations := db1.reservations ++ [resv] })
          else (.error "No available copies.", db1)

/-- The sum of the four inventory counters of a book. -/
def counterSum (b : Book) : Int :=
  b.availableCount + b.reservedCount + b.borrowedCount + b.lostCount

/-- The counter sums of every book, keyed by id. -/
def bookSums (books : List (Nat × Book)) : List (Nat × Int) :=
  books.map (fun p => (p.1, counterSum p.2))

/-- The cooldown timestamps of every student, keyed by id. -/
def cooldowns (students : List (Nat × Student)) : List (Nat × Option Nat) :=
  students.map (fun p => (p.1, p.2.cooldownUntil))

-- Concrete sample data used by the witnesses and counterexamples below.

/-- A title with a single copy, on the shelf. -/
def fxBook1 : Book :=
  { quantity := 1, availableCount := 1, reservedCount := 0, borrowedCount := 0,
    lostCount := 0, status := "Available" }

/-- A title with two copies, both on the shelf. -/
def fxBookQ2 : Book :=
  { quantity := 2, availableCount := 2, reservedCount := 0, borrowedCount := 0,
    lostCount := 0, status := "Available" }

/-- A three-copy title whose counters have been corrupted. -/
def fxBookQ3 : Book :=
  { quantity := 3, availableCount := 5, reservedCount := 7, borrowedCount := 0,
    lostCount := 0, status := "Available" }

/-- A verified member with no active reservation. -/
def fxActive : Student :=
  { activeReservations := 0, cooldownUntil := none, status := "Active" }

/-- A verified member with one active reservation. -/
def fxBusy : Student :=
  { activeReservations := 1, cooldownUntil := none, status := "Active" }

/-- A verified member with two active reservations. -/
def fxBusy2 : Student :=
  { activeReservations := 2, cooldownUntil := none, status := "Active" }

/-- A member whose standing status is still Pending (not verified). -/
def fxPending : Student :=
  { activeReservations := 0, cooldownUntil := none, status := "Pending" }

/-- A live hold. -/
def fxHold : Reservation :=
  { rid := 1, bookId := 1, studentId := 1, status := "reserved", reservedAt := 0,
    expiresAt := 100, dueDate := none, reminderSent := false }

/-- A hold whose pickup deadline has passed. -/
def fxOverdue : Reservation :=
  { rid := 1, bookId := 1, studentId := 1, status := "reserved", reservedAt := 0,
    expiresAt := 5, dueDate := none, reminderSent := false }

/-- A hold expiring far in the future. -/
def fxHoldLong : Reservation :=
  { rid := 1, bookId := 1, studentId := 1, status := "reserved", reservedAt := 0,
    expiresAt := 1000000, dueDate := none, reminderSent := false }

/-- A reservation in the terminal state completed. -/
def fxDone : Reservation :=
  { rid := 1, bookId := 1, studentId := 1, status := "completed", reservedAt := 0,
    expiresAt := 5, dueDate := none, reminderSent := false }

/-- An approved reservation (copy picked up). -/
def fxApproved : Reservation :=
  { rid := 1, bookId := 1, studentId := 1, status := "approved", reservedAt := 0,
    expiresAt := 5, dueDate := none, reminderSent := false }

/-- Two members racing for the single copy of one title. -/
def fxDbRace : DB :=
  { books := [(1, fxBook1)], students := [(1, fxActive), (2, fxActive)], reservations := [] }

/-- An unverified member facing an available title. -/
def fxDbPending : DB :=
  { books := [(1, fxBook1)], students := [(1, fxPending)], reservations := [] }

/-- A member already at the active-reservation limit. -/
def fxDbBusy : DB :=
  { books := [(1, fxBook1)], students := [(1, fxBusy)], reservations := [] }

/-- A member holding one live reservation, ready to cancel it. -/
def fxDbCancel : DB :=
  { books := [(1, fxBook1)], students := [(1, fxBusy)], reservations := [fxHold] }

/-- A member holding one overdue reservation. -/
def fxDbSweep : DB :=
  { books := [(1, fxBook1)], students := [(1, fxBusy)], reservations := [fxOverdue] }

/-- A completed reservation on file. -/
def fxDbDone : DB :=
  { books := [(1, fxBook1)], students := [(1, fxActive)], reservations := [fxDone] }

/-- An approved reservation on file. -/
def fxDbApproved : DB :=
  { books := [(1, fxBook1)], students := [(1, fxActive)], reservations := [fxApproved] }

/-- A corrupted three-copy title with one reserved hold on record. -/
def fxDbSync : DB :=
  { books := [(1, fxBookQ3)], students := [], reservations := [fxOverdue] }

/-- A two-copy title with consistent counters and no reservations. -/
def fxDbInv : DB :=
  { books := [(1, fxBookQ2)], students := [], reservations := [] }

/-- A member already holding one live hold on a two-copy title. -/
def fxDbDup3 : DB :=
  { books := [(1, fxBookQ2)], students := [(1, fxActive)], reservations := [fxHoldLong] }

/-- A fresh member and an available single-copy title. -/
def fxDbNine : DB :=
  { books := [(1, fxBook1)], students := [(1, fxActive)], reservations := [] }

/-- A member with two active reservations, one of them approved. -/
def fxDbRet : DB :=
  { books := [(1, fxBook1)], students := [(1, fxBusy2)], reservations := [fxApproved] }

/-- The state after the member cancels the hold of `fxDbCancel`. -/
def fxDbCancelAfter : DB :=
  match cancelRoute fxDbCancel 1 1 with
  | .ok d => d
  | .error _ => fxDbCancel

/-- The state after forcing the completed reservation of `fxDbDone` to approved. -/
def fxDbDoneAfter : DB :=
  match patchStatusV3 fxDbDone 1 "approved" 0 with
  | .ok d => d
  | .error _ => fxDbDone

/-- The state after the member self-cancels the approved reservation of
`fxDbApproved` through the controller path. -/
def fxDbApprovedAfter : DB :=
  match cancelController fxDbApproved 1 1 with
  | .ok d => d
  | .error _ => fxDbApproved

/-- The state after marking the approved reservation of `fxDbRet` returned. -/
def fxDbRetAfter : DB :=
  match patchStatusPart18 fxDbRet 1 "returned" 0 with
  | .ok d => d
  | .error _ => fxDbRet

/-- The owner of the overdue hold of `fxDbSweep` after the inline sweep runs
at time 10. -/
def fxStudentAfterSweep : Student :=
  { activeReservations := 0, cooldownUntil := some 600010, status := "Active" }

theorem lookup_updateById_self {β : Type} (l : List (Nat × β)) (i : Nat) (f : β → β) :
    lookupById (updateById l i f) i = (lookupById l i).map f := by
  induction l with
  | nil => rfl
  | cons p rest ih =>
    by_cases h : p.1 = i
    · simp [updateById, lookupById, h]
    · simpa [updateById, lookupById, h] using ih

theorem lookup_updateById_ne {β : Type} (l : List (Nat × β)) (i j : Nat) (f : β → β)
    (h : j ≠ i) :
    lookupById (updateById l i f) j = lookupById l j := by
  induction l with
  | nil => rfl
  | cons p rest ih =>
    by_cases hp : p.1 = i
    · have hpj : p.1 ≠ j := by rw [hp]; exact Ne.symm h
      simp [updateById, lookupById, hp, hpj, Ne.symm h]
      simpa [updateById] using ih
    · by_cases hj : p.1 = j
      · simp [updateById, lookupById, hp, hj, h]
      · simp [updateById, lookupById, hp, hj]
        simpa [updateById] using ih

theorem map_congr_mem {α β : Type} (l : List α) (f g : α → β) (h : ∀ a ∈ l, f a = g a) :
    l.map f = l.map g := by
  induction l with
  | nil => rfl
  | cons a tl ih =>
    have hd := h a (List.mem_cons_self a tl)
    have tl' := ih (fun b hb => h b (List.mem_cons_of_mem a hb))
    simp only [List.map_cons, hd, tl']

theorem map_eq_self_of {α : Type} (l : List α) (f : α → α) (h : ∀ a ∈ l, f a = a) :
    l.map f = l := by
  have := map_congr_mem l f id h
  simpa using this

theorem bookSums_updateById (books : List (Nat × Book)) (i : Nat) (f : Book → Book)
    (hf : ∀ b, counterSum (f b) = counterSum b) :
    bookSums (updateById books i f) = bookSums books := by
  unfold bookSums updateById
  rw [List.map_map]
  apply map_congr_mem
  intro p _
  by_cases h : p.1 = i
  · simp [Function.comp, h, hf]
  · simp [Function.comp, h]

theorem cooldowns_updateById (students : List (Nat × Student)) (i : Nat)
    (f : Student → Student) (hf : ∀ s, (f s).cooldownUntil = s.cooldownUntil) :
    cooldowns (updateById students i f) = cooldowns students := by
  unfold cooldowns updateById
  rw [List.map_map]
  apply map_congr_mem
  intro p _
  by_cases h : p.1 = i
  · simp [Function.comp, h, hf]
  · simp [Function.comp, h]

theorem foldl_step_reservations (step : DB → Reservation → DB)
    (hstep : ∀ d r, (step d r).reservations = setExpired d.reservations r.rid)
    (ms : List Reservation) :
    ∀ db : DB, (ms.foldl step db).reservations
      = ms.foldl (fun rs r => setExpired rs r.rid) db.reservations := by
  induction ms with
  | nil => intro db; rfl
  | cons m tl ih =>
    intro db
    rw [List.foldl_cons, List.foldl_cons, ih, hstep]

theorem foldl_setExpired_eq_map (ms : List Reservation) :
    ∀ rs : List Reservation,
      ms.foldl (fun acc m => setExpired acc m.rid) rs
        = rs.map (fun q => if ms.any (fun m => m.rid == q.rid)
                           then { q with status := "expired" } else q) := by
  induction ms with
  | nil =>
    intro rs
    simp [List.any_nil]
  | cons m tl ih =>
    intro rs
    rw [List.foldl_cons, ih, setExpired, List.map_map]
    apply map_congr_mem
    intro q _
    by_cases h : q.rid = m.rid
    · simp [Function.comp, h, List.any_cons]
    · have h' : ¬ m.rid = q.rid := fun hh => h hh.symm
      simp [Function.comp, h, h', List.any_cons]

theorem sweep_result_not_overdue (step : DB → Reservation → DB)
    (hstep : ∀ d r, (step d r).reservations = setExpired d.reservations r.rid)
    (base : DB) (now : Nat) :
    ∀ r' ∈ ((base.reservations.filter (isOverdueReserved now)).foldl step base).reservations,
      isOverdueReserved now r' = false := by
  intro r' hr'
  rw [foldl_step_reservations step hstep] at hr'
  rw [foldl_setExpired_eq_map] at hr'
  obtain ⟨q, hq, hgq⟩ := List.mem_map.mp hr'
  by_cases hm : ((base.reservations.filter (isOverdueReserved now)).any
      (fun m => m.rid == q.rid)) = true
  · rw [if_pos hm] at hgq
    subst hgq
    simp [isOverdueReserved]
  · rw [if_neg hm] at hgq
    subst hgq
    by_cases hov : isOverdueReserved now q = true
    · exact absurd (List.any_eq_true.mpr ⟨q, List.mem_filter.mpr ⟨hq, hov⟩, by simp⟩) hm
    · simpa using hov

theorem sweep_filter_nil (step : DB → Reservation → DB)
    (hstep : ∀ d r, (step d r).reservations = setExpired d.reservations r.rid)
    (base : DB) (now : Nat) :
    (((base.reservations.filter (isOverdueReserved now)).foldl step base).reservations).filter
      (isOverdueReserved now) = [] := by
  rw [List.filter_eq_nil_iff]
  intro a ha
  simp [sweep_result_not_overdue step hstep base now a ha]

theorem expireOldReservations_idem (db : DB) (now : Nat) :
    expireOldReservations (expireOldReservations db now) now = expireOldReservations db now := by
  show ((expireOldReservations db now).reservations.filter (isOverdueReserved now)).foldl
      (expireStep now) (expireOldReservations db now) = expireOldReservations db now
  rw [show (expireOldReservations db now).reservations
        = ((db.reservations.filter (isOverdueReserved now)).foldl (expireStep now) db).reservations
      from rfl]
  rw [sweep_filter_nil (expireStep now) (fun _ _ => rfl) db now]
  rfl

theorem expireOldReservationsV3_idem (db : DB) (now : Nat) :
    expireOldReservationsV3 (expireOldReservationsV3 db now) now
      = expireOldReservationsV3 db now := by
  show ((expireOldReservationsV3 db now).reservations.filter (isOverdueReserved now)).foldl
      expireStepNoCooldown (expireOldReservationsV3 db now) = expireOldReservationsV3 db now
  rw [show (expireOldReservationsV3 db now).reservations
        = ((db.reservations.filter (isOverdueReserved now)).foldl expireStepNoCooldown
            db).reservations
      from rfl]
  rw [sweep_filter_nil expireStepNoCooldown (fun _ _ => rfl) db now]
  rfl

theorem reminderCond_after_pass (now : Nat) (r : Reservation) :
    reminderCond now (if reminderCond now r then { r with reminderSent := true } else r)
      = false := by
  by_cases h : reminderCond now r = true
  · rw [if_pos h]
    simp [reminderCond]
  · rw [if_neg (by simpa using h)]
    simpa using h

theorem reminderPass_all_false (now : Nat) (rs : List Reservation) :
    ∀ q ∈ reminderPass now rs, reminderCond now q = false := by
  intro q hq
  obtain ⟨q0, _, hgq⟩ := List.mem_map.mp hq
  subst hgq
  exact reminderCond_after_pass now q0

theorem job_reservations_eq (db : DB) (now : Nat) :
    (expireOldReservationsJob db now).reservations
      = (reminderPass now db.reservations).map
          (fun q => if ((reminderPass now db.reservations).filter (isOverdueReserved now)).any
                        (fun m => m.rid == q.rid)
                    then { q with status := "expired" } else q) := by
  show (( ({ db with reservations := reminderPass now db.reservations } : DB).reservations.filter
      (isOverdueReserved now)).foldl expireStepNoCooldown
      { db with reservations := reminderPass now db.reservations }).reservations = _
  rw [foldl_step_reservations expireStepNoCooldown (fun _ _ => rfl)]
  rw [foldl_setExpired_eq_map]

theorem job_result_reminderCond_false (db : DB) (now : Nat) :
    ∀ q ∈ (expireOldReservationsJob db now).reservations, reminderCond now q = false := by
  intro q hq
  rw [job_reservations_eq] at hq
  obtain ⟨q0, hq0, hgq⟩ := List.mem_map.mp hq
  have h0 : reminderCond now q0 = false := reminderPass_all_false now db.reservations q0 hq0
  by_cases hm : (((reminderPass now db.reservations).filter (isOverdueReserved now)).any
      (fun m => m.rid == q0.rid)) = true
  · rw [if_pos hm] at hgq
    subst hgq
    simp [reminderCond]
  · rw [if_neg hm] at hgq
    subst hgq
    exact h0

theorem job_result_not_overdue (db : DB) (now : Nat) :
    ∀ q ∈ (expireOldReservationsJob db now).reservations, isOverdueReserved now q = false := by
  intro q hq
  exact sweep_result_not_overdue expireStepNoCooldown (fun _ _ => rfl)
    { db with reservations := reminderPass now db.reservations } now q hq

theorem expireOldReservationsJob_idem (db : DB) (now : Nat) :
    expireOldReservationsJob (expireOldReservationsJob db now) now
      = expireOldReservationsJob db now := by
  have hrem : reminderPass now (expireOldReservationsJob db now).reservations
      = (expireOldReservationsJob db now).reservations := by
    apply map_eq_self_of
    intro q hq
    simp [job_result_reminderCond_false db now q hq]
  have hdb1 : ({ expireOldReservationsJob db now with
        reservations := reminderPass now (expireOldReservationsJob db now).reservations } : DB)
      = expireOldReservationsJob db now := by
    rw [hrem]
  show (( ({ expireOldReservationsJob db now with
      reservations := reminderPass now (expireOldReservationsJob db now).reservations } : DB
      ).reservations.filter (isOverdueReserved now)).foldl expireStepNoCooldown
      { expireOldReservationsJob db now with
        reservations := reminderPass now (expireOldReservationsJob db now).reservations })
      = expireOldReservationsJob db now
  rw [hdb1]
  have hfil : (expireOldReservationsJob db now).reservations.filter (isOverdueReserved now)
      = [] := by
    rw [List.filter_eq_nil_iff]
    intro a ha
    simp [job_result_not_overdue db now a ha]
  rw [hfil]
  rfl

theorem bookSums_foldl (step : DB → Reservation → DB)
    (hstep : ∀ d r, bookSums (step d r).books = bookSums d.books)
    (ms : List Reservation) :
    ∀ db : DB, bookSums ((ms.foldl step db).books) = bookSums db.books := by
  induction ms with
  | nil => intro db; rfl
  | cons m tl ih =>
    intro db
    rw [List.foldl_cons, ih, hstep]

theorem bookSums_expireStep (now : Nat) (d : DB) (r : Reservation) :
    bookSums (expireStep now d r).books = bookSums d.books := by
  apply bookSums_updateById
  intro b
  simp [counterSum, releaseToAvailable]

theorem bookSums_expireStepNoCooldown (d : DB) (r : Reservation) :
    bookSums (expireStepNoCooldown d r).books = bookSums d.books := by
  show bookSums (updateById d.books r.bookId
      (fun b => { b with availableCount := b.availableCount + 1,
                         reservedCount := b.reservedCount - 1, status := "Available" }))
      = bookSums d.books
  apply bookSums_updateById
  intro b
  simp [counterSum]

theorem bookSums_expireOldReservations (db : DB) (now : Nat) :
    bookSums (expireOldReservations db now).books = bookSums db.books :=
  bookSums_foldl (expireStep now) (bookSums_expireStep now)
    (db.reservations.filter (isOverdueReserved now)) db

theorem bookSums_tryReserveBook (books books1 : List (Nat × Book)) (bid : Nat)
    (h : tryReserveBook books bid = some books1) :
    bookSums books1 = bookSums books := by
  unfold tryReserveBook at h
  split at h
  · split at h
    · injection h with h'
      subst h'
      apply bookSums_updateById
      intro b0
      simp [counterSum, reserveCopyUpdate]
    · simp at h
  · simp at h

theorem expireStep_owner_cooldown (now : Nat) (db : DB) (r : Reservation) :
    ∀ s', lookupById (expireStep now db r).students r.studentId = some s' →
      s'.cooldownUntil = some (computeCooldown now) := by
  intro s' h
  have heq : (expireStep now db r).students
      = updateById db.students r.studentId
          (fun s => { s with activeReservations := s.activeReservations - 1,
                             cooldownUntil := some (computeCooldown now) }) := rfl
  rw [heq, lookup_updateById_self] at h
  cases hs : lookupById db.students r.studentId with
  | none => rw [hs] at h; simp at h
  | some s =>
    rw [hs] at h
    simp only [Option.map_some'] at h
    injection h with h'
    subst h'
    rfl

theorem expireStep_preserves_cooldownSet (now sid : Nat) (db : DB) (r : Reservation)
    (hP : ∀ s', lookupById db.students sid = some s' →
      s'.cooldownUntil = some (computeCooldown now)) :
    ∀ s', lookupById (expireStep now db r).students sid = some s' →
      s'.cooldownUntil = some (computeCooldown now) := by
  by_cases hsid : sid = r.studentId
  · subst hsid
    exact expireStep_owner_cooldown now db r
  · intro s' h
    have heq : (expireStep now db r).students
        = updateById db.students r.studentId
            (fun s => { s with activeReservations := s.activeReservations - 1,
                               cooldownUntil := some (computeCooldown now) }) := rfl
    rw [heq, lookup_updateById_ne db.students r.studentId sid _ hsid] at h
    exact hP s' h

theorem foldl_preserves_cooldownSet (now sid : Nat) (ms : List Reservation) :
    ∀ db : DB,
      (∀ s', lookupById db.students sid = some s' →
        s'.cooldownUntil = some (computeCooldown now)) →
      ∀ s', lookupById ((ms.foldl (expireStep now) db)).students sid = some s' →
        s'.cooldownUntil = some (computeCooldown now) := by
  induction ms with
  | nil => intro db hP; exact hP
  | cons m tl ih =>
    intro db hP
    simp only [List.foldl_cons]
    exact ih (expireStep now db m) (expireStep_preserves_cooldownSet now sid db m hP)

theorem foldl_establishes_cooldownSet (now : Nat) (ms : List Reservation) :
    ∀ (db : DB) (r : Reservation), r ∈ ms →
      ∀ s', lookupById ((ms.foldl (expireStep now) db)).students r.studentId = some s' →
        s'.cooldownUntil = some (computeCooldown now) := by
  induction ms with
  | nil => intro db r hr; cases hr
  | cons m tl ih =>
    intro db r hr
    simp only [List.foldl_cons]
    rcases List.mem_cons.mp hr with h | h
    · subst h
      exact foldl_preserves_cooldownSet now r.studentId tl (expireStep now db r)
        (expireStep_owner_cooldown now db r)
    · exact ih (expireStep now db m) r h

/-- C5: the expiry sweep is idempotent.  After one run at time `now` the
sweep query (`status = "reserved"` and `expiresAt < now`) matches no
record, and a second run at the same time is the identity — for the inline
sweep of src/api/reservation.js, for the third router variant's sweep, and
for the reservationExpiryJob sweep (reminder pass included). -/
theorem C5_expiry_sweep_idempotent (db : DB) (now : Nat) :
    (expireOldReservations db now).reservations.filter (isOverdueReserved now) = [] ∧
    expireOldReservations (expireOldReservations db now) now
      = expireOldReservations db now ∧
    expireOldReservationsV3 (expireOldReservationsV3 db now) now
      = expireOldReservationsV3 db now ∧
    expireOldReservationsJob (expireOldReservationsJob db now) now
      = expireOldReservationsJob db now := by
  refine ⟨?_, expireOldReservations_idem db now, expireOldReservationsV3_idem db now,
    expireOldReservationsJob_idem db now⟩
  exact sweep_filter_nil (expireStep now) (fun _ _ => rfl) db now

/-- C1 (amended): the router create path's reserve-copy operation — the
guarded `findOneAndUpdate` of src/api/reservation.js:91-95 — decrements
`availableCount` and increments `reservedCount` exactly when
`availableCount > 0`, and fails with no mutation otherwise; the check and
the decrement are one conditional update.  The controller create path of
src/controllers/reservationController.js instead reads the availability
and writes the counters separately (see the counterexample). -/
theorem C1_router_reserve_atomic (books : List (Nat × Book)) (bid : Nat) (b : Book)
    (h : lookupById books bid = some b) :
    (0 < b.availableCount →
      tryReserveBook books bid = some (updateById books bid reserveCopyUpdate) ∧
      lookupById (updateById books bid reserveCopyUpdate) bid
        = some { b with availableCount := b.availableCount - 1,
                        reservedCount := b.reservedCount + 1 }) ∧
    (b.availableCount ≤ 0 → tryReserveBook books bid = none) := by
  constructor
  · intro hav
    constructor
    · unfold tryReserveBook
      rw [h]
      simp [hav]
    · rw [lookup_updateById_self, h]
      rfl
  · intro hav
    unfold tryReserveBook
    rw [h]
    simp
    omega

theorem C1_witness :
    lookupById fxDbRace.books 1 = some fxBook1 ∧
    tryReserveBook fxDbRace.books 1 = some (updateById fxDbRace.books 1 reserveCopyUpdate) := by
  refine ⟨rfl, ?_⟩
  exact ((C1_router_reserve_atomic fxDbRace.books 1 fxBook1 rfl).1 (by decide)).1

/-- C1 counterexample: the claim quantifies over the reserve-copy operation
as implemented in the Create path, but the controller variant's
availability check and counter decrement are separate read and write
steps.  Under the interleaving in which two creates both read the same
state with `availableCount = 1`, both requests succeed: two reserved
records are created for a single available copy, while the atomic guarded
update would have refused the second request. -/
theorem C1_counterexample :
    (twoControllerCreatesInterleaved fxDbRace 1 2 1 50 50 0 10 11).2.1 = true ∧
    (twoControllerCreatesInterleaved fxDbRace 1 2 1 50 50 0 10 11).2.2 = true ∧
    ((twoControllerCreatesInterleaved fxDbRace 1 2 1 50 50 0 10 11).1.reservations.filter
      (fun r => r.bookId == 1 && r.status == "reserved")).length = 2 ∧
    (lookupById (twoControllerCreatesInterleaved fxDbRace 1 2 1 50 50 0 10 11).1.books 1).map
      (fun b => b.availableCount) = some 0 ∧
    tryReserveBook (reserveController fxDbRace 1 1 50 0 10).2.books 1 = none :=
  ⟨rfl, rfl, rfl, rfl, rfl⟩

/-- C2 (amended): every counter mutation performed by the reservation
routes — create, member cancel, both status-update routes, and the expiry
sweeps — is a paired increment/decrement, so each of these operations
leaves `availableCount + reservedCount + borrowedCount + lostCount`
unchanged for every book; the equation with `totalCopies` therefore holds
after such an operation exactly when it held before.  `syncBookCounts`,
however, overwrites the counters independently and can break the equation
(see the counterexample). -/
theorem C2_paired_counter_mutations :
    (∀ db sid bid now rid,
      bookSums (reservePost db sid bid now rid).2.books = bookSums db.books) ∧
    (∀ db now, bookSums (expireOldReservations db now).books = bookSums db.books) ∧
    (∀ db now, bookSums (expireOldReservationsJob db now).books = bookSums db.books) ∧
    (∀ db id req db', cancelRoute db id req = .ok db' →
      bookSums db'.books = bookSums db.books) ∧
    (∀ db id st db', patchStatusV1 db id st = .ok db' →
      bookSums db'.books = bookSums db.books) ∧
    (∀ db id st now db', patchStatusV3 db id st now = .ok db' →
      bookSums db'.books = bookSums db.books) := by
  refine ⟨?_, ?_, ?_, ?_, ?_, ?_⟩
  · intro db sid bid now rid
    unfold reservePost
    dsimp only
    split
    · exact bookSums_expireOldReservations db now
    · split
      · exact bookSums_expireOldReservations db now
      · split
        · exact bookSums_expireOldReservations db now
        · split
          · exact bookSums_expireOldReservations db now
          · split
            · exact bookSums_expireOldReservations db now
            · rename_i books1 htr
              exact (bookSums_tryReserveBook _ books1 bid htr).trans
                (bookSums_expireOldReservations db now)
  · exact bookSums_expireOldReservations
  · intro db now
    exact bookSums_foldl expireStepNoCooldown bookSums_expireStepNoCooldown _ _
  · intro db id req db' h
    unfold cancelRoute at h
    split at h
    · simp at h
    · split at h
      · simp at h
      · split at h
        · simp at h
        · injection h with h'
          subst h'
          apply bookSums_updateById
          intro b
          simp [counterSum, releaseToAvailable]
  · intro db id st db' h
    unfold patchStatusV1 at h
    split at h
    · simp at h
    · split at h
      · simp at h
      · dsimp only at h
        split at h
        · injection h with h'
          subst h'
          dsimp only
          apply bookSums_updateById
          intro b
          simp [counterSum]
          try ring
        · split at h
          · injection h with h'
            subst h'
            dsimp only
            apply bookSums_updateById
            intro b
            simp [counterSum, releaseToAvailable]
          · injection h with h'
            subst h'
            rfl
  · intro db id st now db' h
    unfold patchStatusV3 at h
    split at h
    · simp at h
    · injection h with h'
      subst h'
      dsimp only
      split
      · apply bookSums_updateById
        intro b
        simp [counterSum]
        try ring
      · split
        · apply bookSums_updateById
          intro b
          simp [counterSum]
          try ring
        · split
          · apply bookSums_updateById
            intro b
            simp [counterSum]
            ring
          · split
            · apply bookSums_updateById
              intro b
              simp [counterSum]
              try ring
            · rfl

theorem C2_witness :
    cancelRoute fxDbCancel 1 1 = .ok fxDbCancelAfter ∧
    bookSums fxDbCancelAfter.books = bookSums fxDbCancel.books := by
  refine ⟨rfl, ?_⟩
  exact C2_paired_counter_mutations.2.2.2.1 fxDbCancel 1 1 fxDbCancelAfter rfl

/-- C2 counterexample: the claim requires the counter equation to hold
after every operation, reconciliation included, because every mutation is
a paired increment/decrement.  But `syncBookCounts` overwrites the
counters independently: on a two-copy title with consistent counters
(sum = 2 = quantity) and no reservations, one run sets the counters to
sum 1 (its capacity read `book.totalCount || 1` is always 1 because the
schema has no `totalCount` field), breaking the equation. -/
theorem C2_counterexample :
    counterSum fxBookQ2 = (fxBookQ2.quantity : Int) ∧
    (lookupById (syncBookCounts fxDbInv).books 1).map (fun b => counterSum b) = some 1 ∧
    (1 : Int) ≠ (fxBookQ2.quantity : Int) := by
  refine ⟨rfl, rfl, by decide⟩

/-- C3 (amended): the status-update route checks no transition table: for
any existing reservation — whatever its current status, terminal states
included — and any requested target, `PATCH /:id/status` (third router
variant) succeeds and overwrites the stored status with the target
(rewritten to `completed` for target `returned`); it never returns an
invalid-transition error.  The first router variant additionally
whitelists the target (`approved`/`declined`) but also never checks the
current status before overwriting it. -/
theorem C3_patch_has_no_transition_guard (db : DB) (id : Nat) (st : String) (now : Nat)
    (r : Reservation) (h : db.reservations.find? (fun q => q.rid == id) = some r) :
    ∃ db', patchStatusV3 db id st now = .ok db' ∧
      ∀ q ∈ db'.reservations, q.rid = id →
        q.status = (if st == "returned" then "completed" else st) := by
  unfold patchStatusV3
  rw [h]
  refine ⟨_, rfl, ?_⟩
  intro q hq hqid
  obtain ⟨q0, hq0, hgq⟩ := List.mem_map.mp hq
  by_cases h0 : q0.rid = id
  · rw [if_pos (by simpa using h0)] at hgq
    subst hgq
    rfl
  · rw [if_neg (by simpa using h0)] at hgq
    subst hgq
    exact absurd hqid h0

theorem C3_witness :
    fxDbDone.reservations.find? (fun q => q.rid == 1) = some fxDone ∧
    (∃ db', patchStatusV3 fxDbDone 1 "lost" 0 = .ok db' ∧
      ∀ q ∈ db'.reservations, q.rid = 1 →
        q.status = (if "lost" == "returned" then "completed" else "lost")) :=
  ⟨rfl, C3_patch_has_no_transition_guard fxDbDone 1 "lost" 0 fxDone rfl⟩

/-- C3 counterexample: the claim says a transition out of the terminal
state `completed` returns InvalidTransition and leaves the record and the
counters unchanged.  Forcing the completed reservation to `approved`
instead succeeds, rewrites the stored status, and moves the book counters
(`reservedCount` drops to -1, `borrowedCount` rises to 1). -/
theorem C3_counterexample :
    fxDone.status = "completed" ∧
    patchStatusV3 fxDbDone 1 "approved" 0 = .ok fxDbDoneAfter ∧
    fxDbDoneAfter.reservations.map (fun r => r.status) = ["approved"] ∧
    (lookupById fxDbDoneAfter.books 1).map (fun b => (b.reservedCount, b.borrowedCount))
      = some (-1, 1) :=
  ⟨rfl, rfl, rfl, rfl⟩

/-- C4: evaluation of `syncBookCounts` at the failing input: a three-copy
title (`quantity = 3`) with one reserved hold on record.  The code sets
`availableCount` to `max(1 - 1, 0) = 0` because it reads the nonexistent
`totalCount` field (so its capacity is always 1), where the specified
recomputation from `totalCopies` yields 2; the overwritten counters sum to
1 ≠ 3, so one run does not restore the invariant. -/
theorem C4_sync_uses_wrong_capacity :
    (lookupById (syncBookCounts fxDbSync).books 1).map
        (fun b => (b.availableCount, b.reservedCount, b.borrowedCount, b.lostCount))
      = some (0, 1, 0, 0) ∧
    (specReconcileBook fxDbSync.reservations 1 fxBookQ3).availableCount = 2 ∧
    (lookupById (syncBookCounts fxDbSync).books 1).map (fun b => counterSum b) = some 1 ∧
    (fxBookQ3.quantity : Int) = 3 :=
  ⟨rfl, rfl, rfl, rfl⟩

/-- C6 (amended): the create route of src/api/reservation.js:61-131 checks
its preconditions in the order cooldown first, then the
active-reservation limit, and only then attempts the guarded inventory
decrement; each failing check stops the request with only the inline
sweep's effects applied.  No standing-status check is performed at all
(see the counterexample), so the claimed first check and its
MemberNotEligible failure do not exist in this path. -/
theorem C6_create_checks_cooldown_then_limit (db : DB) (sid bid now rid : Nat)
    (user : Student) (hu : lookupById db.students sid = some user) :
    (cooldownActive user now = true →
      reservePost db sid bid now rid
        = (.error "Cooldown active. Please wait before reserving again.",
           expireOldReservations db now)) ∧
    (cooldownActive user now = false →
      ∀ sdoc, lookupById (expireOldReservations db now).students sid = some sdoc →
        (MAX_ACTIVE_RESERVATIONS ≤ sdoc.activeReservations →
          reservePost db sid bid now rid
            = (.error "You already have an active reservation",
               expireOldReservations db now)) ∧
        (¬ MAX_ACTIVE_RESERVATIONS ≤ sdoc.activeReservations →
          tryReserveBook (expireOldReservations db now).books bid = none →
          reservePost db sid bid now rid
            = (.error "No available copies", expireOldReservations db now))) := by
  constructor
  · intro hcd
    unfold reservePost
    dsimp only
    rw [hu]
    dsimp only
    rw [if_pos hcd]
  · intro hcd sdoc hs
    constructor
    · intro hlim
      unfold reservePost
      dsimp only
      rw [hu]
      dsimp only
      rw [if_neg (by simp [hcd])]
      rw [hs]
      dsimp only
      rw [if_pos hlim]
    · intro hlim htr
      unfold reservePost
      dsimp only
      rw [hu]
      dsimp only
      rw [if_neg (by simp [hcd])]
      rw [hs]
      dsimp only
      rw [if_neg hlim]
      rw [htr]

theorem C6_witness :
    lookupById fxDbBusy.students 1 = some fxBusy ∧
    cooldownActive fxBusy 0 = false ∧
    reservePost fxDbBusy 1 1 0 7
      = (.error "You already have an active reservation", expireOldReservations fxDbBusy 0) := by
  refine ⟨rfl, rfl, ?_⟩
  exact ((C6_create_checks_cooldown_then_limit fxDbBusy 1 1 0 7 fxBusy rfl).2 rfl
    fxBusy rfl).1 (by decide)

/-- C6 counterexample: the claim's first precondition is that a member
whose standing status is not Active is rejected with MemberNotEligible
before anything else.  The create route performs no standing check: a
member whose status is Pending, with no cooldown and no active
reservation, successfully reserves an available title. -/
theorem C6_counterexample :
    fxPending.status ≠ "Active" ∧
    (reservePost fxDbPending 1 1 0 100).1
      = .ok { rid := 100, bookId := 1, studentId := 1, status := "reserved",
              reservedAt := 0, expiresAt := 3600000, dueDate := none,
              reminderSent := false } := by
  exact ⟨by decide, rfl⟩

/-- C7 (amended): the member cancel route (`DELETE /api/reservation/:id`)
behaves exactly as the claim states: not-found, not-owner and
not-reserved requests fail with the corresponding errors and no mutation,
and a successful cancel releases the copy (`availableCount` +1,
`reservedCount` -1), decrements the owner's `activeReservations`, and
marks the reservation cancelled.  The controller cancel variant, however,
also accepts approved reservations (see the counterexample), merges all
three failures into one not-found error, and never touches the member
counter. -/
theorem C7_cancel_route_contract (db : DB) (id req : Nat) :
    (db.reservations.find? (fun r => r.rid == id) = none →
      cancelRoute db id req = .error "Reservation not found") ∧
    (∀ r, db.reservations.find? (fun r => r.rid == id) = some r →
      (r.studentId ≠ req → cancelRoute db id req = .error "Not authorized") ∧
      (r.studentId = req → r.status ≠ "reserved" →
        cancelRoute db id req = .error "Reservation already expired or cancelled") ∧
      (r.studentId = req → r.status = "reserved" →
        ∃ db', cancelRoute db id req = .ok db' ∧
          lookupById db'.books r.bookId
            = (lookupById db.books r.bookId).map releaseToAvailable ∧
          lookupById db'.students req
            = (lookupById db.students req).map
                (fun s => { s with activeReservations := s.activeReservations - 1 }) ∧
          (∀ q ∈ db'.reservations, q.rid = id → q.status = "cancelled") ∧
          (∀ q ∈ db'.reservations, q.rid ≠ id → q ∈ db.reservations))) := by
  constructor
  · intro hnone
    unfold cancelRoute
    rw [hnone]
  · intro r hr
    refine ⟨?_, ?_, ?_⟩
    · intro hown
      unfold cancelRoute
      rw [hr]
      dsimp only
      rw [if_pos hown]
    · intro hown hst
      unfold cancelRoute
      rw [hr]
      dsimp only
      rw [if_neg (by simp [hown]), if_pos hst]
    · intro hown hst
      unfold cancelRoute
      rw [hr]
      dsimp only
      rw [if_neg (by simp [hown]), if_neg (by simp [hst])]
      refine ⟨_, rfl, ?_, ?_, ?_, ?_⟩
      · rw [lookup_updateById_self]
      · rw [hown, lookup_updateById_self]
      · intro q hq hqid
        obtain ⟨q0, hq0, hgq⟩ := List.mem_map.mp hq
        by_cases h0 : q0.rid = id
        · rw [if_pos (by simpa using h0)] at hgq
          subst hgq
          rfl
        · rw [if_neg (by simpa using h0)] at hgq
          subst hgq
          exact absurd hqid h0
      · intro q hq hqid
        obtain ⟨q0, hq0, hgq⟩ := List.mem_map.mp hq
        by_cases h0 : q0.rid = id
        · rw [if_pos (by simpa using h0)] at hgq
          subst hgq
          exact absurd h0 (by simpa using hqid)
        · rw [if_neg (by simpa using h0)] at hgq
          subst hgq
          exact hq0

theorem C7_witness :
    fxDbCancel.reservations.find? (fun r => r.rid == 1) = some fxHold ∧
    (∃ db', cancelRoute fxDbCancel 1 1 = .ok db' ∧
      lookupById db'.books fxHold.bookId
        = (lookupById fxDbCancel.books fxHold.bookId).map releaseToAvailable ∧
      lookupById db'.students 1
        = (lookupById fxDbCancel.students 1).map
            (fun s => { s with activeReservations := s.activeReservations - 1 }) ∧
      (∀ q ∈ db'.reservations, q.rid = 1 → q.status = "cancelled") ∧
      (∀ q ∈ db'.reservations, q.rid ≠ 1 → q ∈ fxDbCancel.reservations)) :=
  ⟨rfl, ((C7_cancel_route_contract fxDbCancel 1 1).2 fxHold rfl).2.2 rfl rfl⟩

/-- C7 counterexample: the claim requires InvalidTransition whenever the
reservation's status is not `reserved`.  The controller cancel path
accepts an approved reservation: the member self-cancels it successfully
and its status becomes cancelled. -/
theorem C7_counterexample :
    fxApproved.status ≠ "reserved" ∧
    cancelController fxDbApproved 1 1 = .ok fxDbApprovedAfter ∧
    fxDbApprovedAfter.reservations.map (fun r => r.status) = ["cancelled"] := by
  exact ⟨by decide, rfl, rfl⟩

/-- C8 (amended): voluntary cancellation and admin decline never modify
any member's `cooldownUntil` (the member cancel route and both
status-update routes leave every cooldown timestamp unchanged), and the
inline sweep of src/api/reservation.js sets the owner's `cooldownUntil`
to `now + 10` minutes for every hold it expires.  The claim's final part
does not hold of every sweep variant: the reservationExpiryJob sweep
expires holds without setting any cooldown (see the counterexample). -/
theorem C8_cooldown_only_set_by_inline_sweep :
    (∀ db id req db', cancelRoute db id req = .ok db' →
      cooldowns db'.students = cooldowns db.students) ∧
    (∀ db id st db', patchStatusV1 db id st = .ok db' →
      cooldowns db'.students = cooldowns db.students) ∧
    (∀ db id st now db', patchStatusV3 db id st now = .ok db' →
      db'.students = db.students) ∧
    (∀ db now r, r ∈ db.reservations.filter (isOverdueReserved now) →
      ∀ s', lookupById (expireOldReservations db now).students r.studentId = some s' →
        s'.cooldownUntil = some (computeCooldown now)) := by
  refine ⟨?_, ?_, ?_, ?_⟩
  · intro db id req db' h
    unfold cancelRoute at h
    split at h
    · simp at h
    · split at h
      · simp at h
      · split at h
        · simp at h
        · injection h with h'
          subst h'
          dsimp only
          apply cooldowns_updateById
          intro s
          rfl
  · intro db id st db' h
    unfold patchStatusV1 at h
    split at h
    · simp at h
    · split at h
      · simp at h
      · dsimp only at h
        split at h
        · injection h with h'
          subst h'
          rfl
        · split at h
          · injection h with h'
            subst h'
            dsimp only
            apply cooldowns_updateById
            intro s
            rfl
          · injection h with h'
            subst h'
            rfl
  · intro db id st now db' h
    unfold patchStatusV3 at h
    split at h
    · simp at h
    · injection h with h'
      subst h'
      rfl
  · intro db now r hr s' hs'
    exact foldl_establishes_cooldownSet now
      (db.reservations.filter (isOverdueReserved now)) db r hr s' hs'

theorem C8_witness :
    fxOverdue ∈ fxDbSweep.reservations.filter (isOverdueReserved 10) ∧
    lookupById (expireOldReservations fxDbSweep 10).students 1 = some fxStudentAfterSweep ∧
    fxStudentAfterSweep.cooldownUntil = some (computeCooldown 10) := by
  refine ⟨by decide, rfl, ?_⟩
  exact C8_cooldown_only_set_by_inline_sweep.2.2.2 fxDbSweep 10 fxOverdue (by decide)
    fxStudentAfterSweep rfl

/-- C8 counterexample: the claim says the expiry sweep sets the owner's
`cooldownUntil` to a future timestamp for each expired hold.  The
reservationExpiryJob sweep variant expires the overdue hold (status
becomes `expired`, the member counter is decremented) but leaves the
owner's `cooldownUntil` empty. -/
theorem C8_counterexample :
    (expireOldReservationsJob fxDbSweep 10).reservations.map (fun r => r.status)
      = ["expired"] ∧
    lookupById (expireOldReservationsJob fxDbSweep 10).students 1
      = some { activeReservations := 0, cooldownUntil := none, status := "Active" } :=
  ⟨rfl, rfl⟩

/-- C9 (amended): `activeReservations` is not guaranteed non-negative:
the sweep's and the declined branch's decrements are unguarded `$inc: -1`
updates and can drive the counter to -1 (see the counterexample).  Only
the part_018 status route's returned branch guards its decrement
(`if (student && student.activeReservations > 0)`): that branch preserves
non-negativity of every member's counter. -/
theorem C9_part18_returned_guarded_decrement (db : DB) (id now : Nat) (db' : DB)
    (h : patchStatusPart18 db id "returned" now = .ok db')
    (hpos : ∀ p ∈ db.students, 0 ≤ p.2.activeReservations) :
    ∀ p ∈ db'.students, 0 ≤ p.2.activeReservations := by
  unfold patchStatusPart18 at h
  split at h
  · simp at h
  · rename_i rr heqr
    injection h with h'
    subst h'
    dsimp only
    intro p hp
    obtain ⟨p0, hp0, hgp⟩ := List.mem_map.mp hp
    have h0 := hpos p0 hp0
    by_cases hk : (p0.1 == rr.studentId) = true
    · rw [if_pos hk] at hgp
      subst hgp
      dsimp only
      by_cases ha : 0 < p0.2.activeReservations
      · rw [if_pos ha]
        dsimp only
        omega
      · rw [if_neg ha]
        exact h0
    · rw [if_neg hk] at hgp
      subst hgp
      exact h0

theorem C9_witness :
    patchStatusPart18 fxDbRet 1 "returned" 0 = .ok fxDbRetAfter ∧
    (∀ p ∈ fxDbRetAfter.students, 0 ≤ p.2.activeReservations) := by
  refine ⟨rfl, ?_⟩
  exact C9_part18_returned_guarded_decrement fxDbRet 1 0 fxDbRetAfter rfl (by decide)

/-- C9 counterexample: a reachable run drives `activeReservations` to -1.
The controller create path inserts a hold without incrementing the
member's counter (`fxDbNine`, counter 0); when the hold expires, the
inline sweep's unguarded `$inc: { activeReservations: -1 }` leaves the
member's counter at -1 < 0. -/
theorem C9_counterexample :
    (lookupById fxDbNine.students 1).map (fun s => s.activeReservations) = some 0 ∧
    (lookupById (expireOldReservations (reserveController fxDbNine 1 1 5 0 1).2 10).students
        1).map (fun s => s.activeReservations) = some (-1) ∧
    (-1 : Int) < 0 := by
  exact ⟨rfl, rfl, by decide⟩

/-- C10 (amended): only the controller create path enforces the
single-active-reservation-per-title rule: when the member already has a
reservation for the same book with status reserved, approved or borrowed,
`createReservation` fails with the duplicate error and returns the state
unchanged.  The router create paths have no such guard: the third router
variant lets a member who already holds a live hold on a title reserve the
same title again (see the counterexample). -/
theorem C10_controller_duplicate_guard (db : DB) (sid bid e now rid : Nat)
    (h : ∃ r ∈ db.reservations, (r.bookId == bid && r.studentId == sid &&
        (r.status == "reserved" || r.status == "approved" || r.status == "borrowed")) = true) :
    reserveController db sid bid e now rid
      = (.error "You already have an active reservation for this book.", db) := by
  have hg : controllerDupGuard db sid bid = true := by
    unfold controllerDupGuard
    exact List.find?_isSome.mpr h
  unfold reserveController
  rw [if_pos hg]

theorem C10_witness :
    fxHoldLong ∈ fxDbDup3.reservations ∧
    (fxHoldLong.bookId == 1 && fxHoldLong.studentId == 1 &&
      (fxHoldLong.status == "reserved" || fxHoldLong.status == "approved"
        || fxHoldLong.status == "borrowed")) = true ∧
    reserveController fxDbDup3 1 1 50 0 9
      = (.error "You already have an active reservation for this book.", fxDbDup3) := by
  refine ⟨?_, by decide, ?_⟩
  · decide
  · exact C10_controller_duplicate_guard fxDbDup3 1 1 50 0 9
      ⟨fxHoldLong, by decide, by decide⟩

/-- C10 counterexample: the claim quantifies over reservation creation,
but the third router variant's create has no duplicate guard: a member
who already holds a live hold for the title (one matching active
reservation on file) successfully reserves the same title again, ending
with two simultaneously reserved records for the same member and title. -/
theorem C10_counterexample :
    (fxDbDup3.reservations.filter
      (fun r => r.studentId == 1 && r.bookId == 1 && r.status == "reserved")).length = 1 ∧
    (reservePostV3 fxDbDup3 1 1 10 2).1
      = .ok { rid := 2, bookId := 1, studentId := 1, status := "reserved",
              reservedAt := 10, expiresAt := 7200010, dueDate := none,
              reminderSent := false } ∧
    ((reservePostV3 fxDbDup3 1 1 10 2).2.reservations.filter
      (fun r => r.studentId == 1 && r.bookId == 1 && r.status == "reserved")).length = 2 :=
  ⟨rfl, rfl, rfl⟩
